import Mathlib

/-!
# Verification of `cloudperf/providers/aws_helpers.py`

Shallow embedding of the fleet benchmark orchestrator of the `cloudperf`
repository (`src/cloudperf/providers/aws_helpers.py`), together with proofs
about the claims of its specification.

The embedding models the externally observable behaviour of

* the instance-creation retry loop of `run_benchmarks` (lines 371-443),
* the benchmark sweep and score aggregation of `run_benchmarks` (487-538),
* the termination bookkeeping of `run_benchmarks` (442-538),
* `get_benchmarks_to_run` (541-552), and
* the coordinator `get_ec2_performance` (555-588).

Cloud responses (boto3 `run_instances` outcomes), the ssh transport, and the
remote command results are inputs of the model (oracles), one per call site,
exactly as a fake control plane would supply them in a test harness.
-/

set_option autoImplicit false

/-! ## Instance-creation retry loop (`run_benchmarks`, lines 371-443)

One create-attempt (a `boto3` `ec2.run_instances` call) either succeeds,
raises a `ClientError` carrying an error code string, or raises some other
exception.  This is the oracle alphabet of the loop. -/

/-- Outcome of one `ec2.run_instances` call as observed by the
`except`-clauses of the creation loop. -/
inductive CreateOutcome where
  | success
  | clientError (code : String)
  | otherExc
deriving DecidableEq

/-- Which request specs the next `run_instances` call uses: `spotspecs`
(with `InstanceMarketOptions`) or the plain on-demand `specs`. -/
inductive Market where
  | spot
  | onDemand
deriving DecidableEq

/-- Mutable state of the creation loop: the specs currently used
(`create_specs`), the retry counter (`retcount`), the number of
`run_instances` calls made so far (`attempts`, also the index of the next
oracle entry), and the number of backoff `time.sleep(1.2**retcount)` calls
executed (`sleeps`). -/
structure PState where
  market : Market
  retcount : Nat
  attempts : Nat
  sleeps : Nat
deriving DecidableEq

/-- State at entry of the `while retcount < 16` loop: spot specs,
`retcount = 0`, no attempt made, no sleep. -/
def pInit : PState := ⟨Market.spot, 0, 0, 0⟩

/-- Result of the creation loop: either `ec2_inst` was obtained (recording
the market type of the successful call) or the function will return `None`
(`break` on a permanent error, or the `while` guard failing at
`retcount = 16`). -/
inductive PResult where
  | created (market : Market) (attempts : Nat) (sleeps : Nat)
  | noInstance (attempts : Nat) (sleeps : Nat)
deriving DecidableEq

/-- The `while retcount < 16` creation loop of `run_benchmarks`
(lines 376-440), driven by the oracle `f` giving the outcome of the `n`-th
`run_instances` call.  `fuel` bounds the number of loop iterations we are
willing to unfold; `none` means the loop was still running when the fuel ran
out (checking the `while` guard itself consumes no fuel).

Branches, in source order:
* `RequestLimitExceeded`: sleep `1.2**retcount`, `retcount += 1`, continue;
* `InsufficientInstanceCapacity`: switch `create_specs` to the on-demand
  `specs`, `retcount = 0`, continue (no sleep);
* `SpotMaxPriceTooLow`: same as capacity;
* `MissingParameter` / `InvalidParameterValue` / `Unsupported`: `break`
  with no instance (no sleep, no retry);
* any other `ClientError`, and any non-`ClientError` exception:
  sleep and `retcount += 1`. -/
def create_instance_loop (f : Nat → CreateOutcome) : Nat → PState → Option PResult
  | 0, st =>
    if st.retcount < 16 then none
    else some (.noInstance st.attempts st.sleeps)
  | fuel + 1, st =>
    if st.retcount < 16 then
      match f st.attempts with
      | .success => some (.created st.market (st.attempts + 1) st.sleeps)
      | .otherExc =>
          create_instance_loop f fuel
            ⟨st.market, st.retcount + 1, st.attempts + 1, st.sleeps + 1⟩
      | .clientError code =>
          if code = "RequestLimitExceeded" then
            create_instance_loop f fuel
              ⟨st.market, st.retcount + 1, st.attempts + 1, st.sleeps + 1⟩
          else if code = "InsufficientInstanceCapacity" then
            create_instance_loop f fuel
              ⟨Market.onDemand, 0, st.attempts + 1, st.sleeps⟩
          else if code = "SpotMaxPriceTooLow" then
            create_instance_loop f fuel
              ⟨Market.onDemand, 0, st.attempts + 1, st.sleeps⟩
          else if code = "MissingParameter" ∨ code = "InvalidParameterValue" ∨
              code = "Unsupported" then
            some (.noInstance (st.attempts + 1) st.sleeps)
          else
            create_instance_loop f fuel
              ⟨st.market, st.retcount + 1, st.attempts + 1, st.sleeps + 1⟩
    else some (.noInstance st.attempts st.sleeps)

/-- An outcome on which the loop resets `retcount` to `0` and switches to
on-demand specs. -/
def isResetOutcome : CreateOutcome → Bool
  | .clientError code =>
      code = "InsufficientInstanceCapacity" || code = "SpotMaxPriceTooLow"
  | _ => false

/-- The creation loop never finishes, whatever iteration bound is allowed:
every fuel value is exhausted with the loop still running. -/
def provisionDiverges (f : Nat → CreateOutcome) : Prop :=
  ∀ fuel, create_instance_loop f fuel pInit = none

/-! ## Benchmark sweep and score aggregation (`run_benchmarks`, 487-538) -/

/-- A Python exception class relevant to the sweep: `ValueError` is what
`max([])` raises, `TypeError` is what comparing `None` with a number (or
with `None`) raises inside `max`. -/
inductive PyErr where
  | valueError
  | typeError
deriving DecidableEq

/-- Observable outcome of one remote `ssh.exec_command` benchmark
execution: the exit status (`stdout.channel.recv_exit_status()`), and the
result of `float(stdo)` applied to its stdout — `some v` when the stdout
parses as the number `v`, `none` when `float` raises.  Python floats are
modelled as rationals. -/
structure ExecOutcome where
  ec : Nat
  out : Option Rat
deriving DecidableEq

/-- The sample list built by the iteration loop (lines 512-526): an
execution with exit code `0` appends `float(stdo)` on parse success and
`None` on parse failure, i.e. it appends exactly its `out` field; an
execution with non-zero exit code appends nothing. -/
def iterSamples (outs : List ExecOutcome) : List (Option Rat) :=
  (outs.filter (fun o => o.ec == 0)).map (fun o => o.out)

/-- One comparison step of CPython `max`: `if item > acc: acc = item`.
Comparing `None` with anything raises `TypeError`. -/
def pyMaxStep (acc x : Option Rat) : Except PyErr (Option Rat) :=
  match acc, x with
  | some a, some b => .ok (some (if b > a then b else a))
  | _, _ => .error .typeError

/-- Python `max` on a list: raises `ValueError` on the empty list, returns
the single element of a singleton (even `None`, without comparing), and
otherwise folds `pyMaxStep` over the tail (raising `TypeError` as soon as a
`None` is compared).  This is the default `score_aggregation` of the
benchmarks (line 527). -/
def pyMax : List (Option Rat) → Except PyErr (Option Rat)
  | [] => .error .valueError
  | x :: xs => xs.foldlM pyMaxStep x

/-- A value of the `benchmarks` dictionary (`bench_data` in the source):
the docker image per cpu architecture, the command template (already
applied to `numcpu`, since `.format` only substitutes that one field), the
optional explicit cpu list, the optional iteration count (default 3), the
optional aggregation function (default Python `max`), and the descriptive
fields copied into result rows. -/
structure BenchData where
  images : List (String × String)
  cmd : Nat → String
  cpus : Option (List Nat) := none
  iterations : Option Nat := none
  score_aggregation : Option (List (Option Rat) → Except PyErr (Option Rat)) := none
  name : Option String := none
  program : Option String := none

/-- A row of the pricing DataFrame as consumed by `run_benchmarks`
(`instance` in the source, one `itertuples` row). -/
structure PriceRow where
  instanceType : String
  vcpu : Nat
  cpu_arch : String
  price : Rat
  spot : Bool
deriving DecidableEq

/-- One element of the `results` list of `run_benchmarks` (lines 529-533);
the `date` field is omitted (wall-clock timestamp). -/
structure ScoreRow where
  instanceType : String
  benchmark_cpus : Nat
  benchmark_score : Option Rat
  benchmark_id : String
  benchmark_name : Option String
  benchmark_cmd : String
  benchmark_program : Option String
deriving DecidableEq

/-- The cpu-count sweep (lines 504-507): the explicit `cpus` list when
present and non-empty (Python truthiness), else `range(1, vcpu+1)`. -/
def effectiveCpus (bd : BenchData) (vcpu : Nat) : List Nat :=
  match bd.cpus with
  | some l => if l ≠ [] then l else List.range' 1 vcpu
  | none => List.range' 1 vcpu

/-- The full docker command line of line 510. -/
def dockerCmd (img dcmd : String) : String :=
  "docker run --network none --rm " ++ img ++ " " ++ dcmd

/-- The samples collected for one cpu-count: `iterations` (default 3)
executions observed through the oracle `ex` (cpu-count, iteration index). -/
def samplesFor (bd : BenchData) (ex : Nat → Nat → ExecOutcome) (cpu : Nat) :
    List (Option Rat) :=
  iterSamples ((List.range (bd.iterations.getD 3)).map (fun it => ex cpu it))

/-- The body of the `for i in cpulist` loop for one cpu-count (lines
508-533): collect the samples, apply the aggregation function (which may
raise), and build the result row. -/
def cpuScore (inst : PriceRow) (nm img : String) (bd : BenchData)
    (ex : Nat → Nat → ExecOutcome) (i : Nat) : Except PyErr ScoreRow :=
  match (bd.score_aggregation.getD pyMax) (samplesFor bd ex i) with
  | .error e => .error e
  | .ok score =>
      .ok { instanceType := inst.instanceType, benchmark_cpus := i,
            benchmark_score := score, benchmark_id := nm,
            benchmark_name := bd.name,
            benchmark_cmd := dockerCmd img (bd.cmd i),
            benchmark_program := bd.program }

/-- Run a fallible row-producer over a list, collecting the produced values
in order and aborting at the first raised exception — the effect of an
unhandled exception inside the Python `for` loops that append to
`results`. -/
def collectEx {α β : Type} (f : α → Except PyErr β) : List α → Except PyErr (List β)
  | [] => .ok []
  | x :: xs =>
    match f x with
    | .error e => .error e
    | .ok y =>
        match collectEx f xs with
        | .error e => .error e
        | .ok ys => .ok (y :: ys)

/-- The cpu-count sweep of one benchmark (lines 504-533): one row per
cpu-count in order, aborted by the first exception raised by the
aggregation function. -/
def sweepRows (inst : PriceRow) (nm : String) (bd : BenchData) (img : String)
    (ex : Nat → Nat → ExecOutcome) : Except PyErr (List ScoreRow) :=
  collectEx (cpuScore inst nm img bd ex) (effectiveCpus bd inst.vcpu)

/-- The `for name, bench_data in benchmarks_to_run.items()` loop (lines
488-533): a benchmark whose `images` dictionary has no (or a falsy, i.e.
empty) entry for the instance's cpu architecture is skipped; otherwise its
sweep rows are appended.  The non-fatal docker-pull retry loop (494-502)
does not influence the produced rows and is not modelled.  The command
oracle `ex` takes (benchmark name, cpu-count, iteration index). -/
def benchRows (inst : PriceRow) (ex : String → Nat → Nat → ExecOutcome) :
    List (String × BenchData) → Except PyErr (List ScoreRow)
  | [] => .ok []
  | (nm, bd) :: rest =>
    match bd.images.lookup inst.cpu_arch with
    | none => benchRows inst ex rest
    | some img =>
        if img = "" then benchRows inst ex rest
        else
          match sweepRows inst nm bd img (ex nm) with
          | .error e => .error e
          | .ok rows =>
              match benchRows inst ex rest with
              | .error e => .error e
              | .ok more => .ok (rows ++ more)

/-! ## The whole pipeline of `run_benchmarks` (lines 348-538) -/

/-- How one `run_benchmarks` call exits. -/
inductive RunOutcome where
  | noInstance
  | sshFailed
  | raised (e : PyErr)
  | done (rows : List ScoreRow)
deriving DecidableEq

/-- Observable result of one `run_benchmarks` call: how it exited and how
many `ec2.terminate_instances` calls it issued. -/
structure RunResult where
  outcome : RunOutcome
  terminateCalls : Nat
deriving DecidableEq

/-- The pipeline of `run_benchmarks` after the spec construction: the
creation loop (oracle `provF`, unfolded up to `fuel` iterations); on no
instance, return `None` having never terminated anything; the
`instance_running` waiter swallows its own exceptions (451-459) and is not
modelled; if the ssh connection loop of `get_ssh_connection` times out
(modelled by the flag `sshOk`), terminate the instance and return `None`;
the non-fatal stop-services loop (476-485) produces no rows and is not
modelled; then the benchmark loops — an exception raised there propagates
out of `run_benchmarks` **without** reaching the `terminate_instances`
call of line 536; on normal completion the instance is terminated once and
the rows are returned. -/
def run_benchmarks (provF : Nat → CreateOutcome) (fuel : Nat) (sshOk : Bool)
    (inst : PriceRow) (benchs : List (String × BenchData))
    (ex : String → Nat → Nat → ExecOutcome) : Option RunResult :=
  match create_instance_loop provF fuel pInit with
  | none => none
  | some (.noInstance _ _) => some ⟨.noInstance, 0⟩
  | some (.created _ _ _) =>
      if sshOk then
        match benchRows inst ex benchs with
        | .error e => some ⟨.raised e, 0⟩
        | .ok rows => some ⟨.done rows, 1⟩
      else some ⟨.sshFailed, 1⟩

/-! ## Freshness filter (`get_benchmarks_to_run`, lines 541-552) -/

/-- A row of the historical performance DataFrame after the column
selection `[['instanceType', 'benchmark_id', 'date']]`; the `date` column
is represented by the age `now - date` of the row in whole seconds (the
value of `(datetime.now() - row.date).total_seconds()`, microseconds
truncated), which may be negative for a future-dated row. -/
structure PerfRow where
  instanceType : String
  benchmark_id : String
  age : Int
deriving DecidableEq, BEq

/-- The `seconds` attribute of the Python `timedelta` `now - date` for a
row of age `age` seconds: `timedelta` normalises to `days + seconds` with
`0 <= seconds < 86400` and floor division, so `.seconds` is the
floor-modulus of the age by one day — NOT the total age. -/
def tdSeconds (age : Int) : Int := age % 86400

/-- Python `pandas.DataFrame.drop_duplicates`: keep the first occurrence of each
distinct row. -/
def dedupRows (rows : List PerfRow) : List PerfRow :=
  rows.foldl (fun acc r => if acc.contains r then acc else acc ++ [r]) []

/-- The body of the `for idx, row in perf_df.iterrows()` loop (lines
545-550): `continue` when `(datetime.now() - row.date).seconds >= expire`,
else `pop` the row's benchmark — `pop` with a default removes the key when
present and is a no-op otherwise, which on an association list is a
filter. -/
def dropExpired (expire : Int) (bmrows : List (String × BenchData))
    (row : PerfRow) : List (String × BenchData) :=
  if tdSeconds row.age ≥ expire then bmrows
  else bmrows.filter (fun p => p.1 ≠ row.benchmark_id)

/-- The function `get_benchmarks_to_run` (lines 541-552), operating on its deep copy of
the global `benchmarks` dictionary (passed here as the explicit value
`benchmarks`): restrict the performance rows to this instance type,
deduplicate them, and fold the pop loop over them. -/
def get_benchmarks_to_run (inst : PriceRow) (perf : List PerfRow)
    (expire : Int) (benchmarks : List (String × BenchData)) :
    List (String × BenchData) :=
  let rows := dedupRows (perf.filter (fun r => r.instanceType == inst.instanceType))
  rows.foldl (dropExpired expire) benchmarks

/-! ### Heap model for the mutation claim about `get_benchmarks_to_run`

To state that `get_benchmarks_to_run` never mutates the global `benchmarks`
dictionary, Python object identity is made explicit: a heap maps addresses
to dictionary values, the global dictionary lives at some address, and
`copy.deepcopy` allocates a fresh address holding a copy of the value.  The
`pop` calls of the loop write through the address of the copy. -/

/-- A heap of benchmark dictionaries: contents per address, and the next
fresh address (every allocated address is `< next`). -/
structure Heap where
  mem : Nat → List (String × BenchData)
  next : Nat

/-- The pop-loop body acting on the heap: a write of the filtered
dictionary through the address `myAddr` of the deep copy (the global
dictionary's address is never written). -/
def dropExpiredHeap (myAddr : Nat) (expire : Int) (hh : Heap) (row : PerfRow) :
    Heap :=
  if tdSeconds row.age ≥ expire then hh
  else
    ⟨fun b =>
        if b = myAddr then
          (hh.mem myAddr).filter (fun p => p.1 ≠ row.benchmark_id)
        else hh.mem b,
      hh.next⟩

/-- The function `get_benchmarks_to_run` with the dictionary mutation made explicit:
`gaddr` is the address of the global `benchmarks` object; the deep copy
allocates the fresh address `h.next`; every `pop` of the loop is a write
through the copy's address.  Returns the address of the result and the
final heap. -/
def get_benchmarks_to_run_heap (h : Heap) (gaddr : Nat) (inst : PriceRow)
    (perf : List PerfRow) (expire : Int) : Nat × Heap :=
  let myAddr := h.next
  let h1 : Heap :=
    ⟨fun b => if b = myAddr then h.mem gaddr else h.mem b, h.next + 1⟩
  let rows := dedupRows (perf.filter (fun r => r.instanceType == inst.instanceType))
  (myAddr, rows.foldl (dropExpiredHeap myAddr expire) h1)

/-! ## Fleet coordinator (`get_ec2_performance`, lines 555-588) -/

/-- Selection of the dispatched pipelines (lines 556-582): keep non-spot
rows, deduplicate by instance type keeping the first occurrence
(`drop_duplicates(subset='instanceType')`), compute the benchmarks still to
run (the freshness filter when historical data is given together with
`update`, else the whole dictionary), drop instances with an empty
benchmark set — and then the hardcoded filter of lines 572-578 drops every
instance type other than `'t3.xlarge'`.  The AMI lookup does not influence
which pipelines run and is not modelled. -/
def build_bench_args (prices : List PriceRow) (perf : Option (List PerfRow))
    (update : Bool) (expire : Int) (bm : List (String × BenchData)) :
    List (PriceRow × List (String × BenchData)) :=
  let onDemand :=
    (prices.filter (fun r => !r.spot)).foldl
      (fun acc r =>
        if acc.any (fun x => x.instanceType == r.instanceType) then acc
        else acc ++ [r])
      []
  onDemand.filterMap (fun inst =>
    let btr :=
      match perf, update with
      | some pdf, true => get_benchmarks_to_run inst pdf expire bm
      | _, _ => bm
    if btr.isEmpty then none
    else if inst.instanceType ≠ "t3.xlarge" then none
    else some (inst, btr))

/-- Python `ThreadPool.map(run_benchmarks, bench_args)`: every worker's result is
collected in input order; if a worker raised, `pool.map` re-raises that
exception in the caller (modelled as the first raised exception in list
order). -/
def poolCollect :
    List (Except PyErr (Option (List ScoreRow))) →
      Except PyErr (List (Option (List ScoreRow)))
  | [] => .ok []
  | r :: rs =>
    match r with
    | .error e => .error e
    | .ok x =>
        match poolCollect rs with
        | .error e => .error e
        | .ok xs => .ok (x :: xs)

/-- The merge of line 586: `pd.concat` over the worker results drops
`None` entries silently, but raises `ValueError` when every entry is
`None`. -/
def mergeResults (rs : List (Except PyErr (Option (List ScoreRow)))) :
    Except PyErr (List ScoreRow) :=
  match poolCollect rs with
  | .error e => .error e
  | .ok collected =>
      let dfs := collected.filterMap id
      if dfs.isEmpty then .error .valueError else .ok dfs.flatten

/-- The function `get_ec2_performance` (lines 555-588) with each worker's behaviour
abstracted as the function `pipeline` from a dispatched (instance,
benchmarks) pair to the outcome of its `run_benchmarks` call (`ok none`
models a `None` return, `error` a raised exception): when no pipeline is
dispatched, return the empty DataFrame; otherwise map the pool over the
dispatch list and concatenate. -/
def get_ec2_performance (prices : List PriceRow) (perf : Option (List PerfRow))
    (update : Bool) (expire : Int) (bm : List (String × BenchData))
    (pipeline : PriceRow → List (String × BenchData) →
      Except PyErr (Option (List ScoreRow))) :
    Except PyErr (List ScoreRow) :=
  let args := build_bench_args prices perf update expire bm
  if args.isEmpty then .ok []
  else mergeResults (args.map (fun ab => pipeline ab.1 ab.2))

/-! ## Concrete fixtures used by witnesses and counterexamples -/

/-- An on-demand pricing row with 8 vcpus. -/
def inst8 : PriceRow := ⟨"m5.2xlarge", 8, "x86_64", 1, false⟩

/-- The one instance type the hardcoded filter of `get_ec2_performance`
lets through. -/
def t3row : PriceRow := ⟨"t3.xlarge", 4, "x86_64", 1, false⟩

/-- An ordinary on-demand pricing row. -/
def c5row : PriceRow := ⟨"c5.large", 2, "x86_64", 1, false⟩

/-- A benchmark entry with an image for `x86_64` and all optional fields at
their defaults. -/
def bdBase : BenchData := { images := [("x86_64", "img")], cmd := fun _ => "run-bench" }

/-- The benchmark of the specification's sweep example: explicit
`cpus = [1, 4]` and `iterations = 2`. -/
def bd14 : BenchData := { bdBase with cpus := some [1, 4], iterations := some 2 }

/-- A benchmark swept over the single cpu-count 1 with the default 3
iterations and the default `max` aggregation. -/
def bd1 : BenchData := { bdBase with cpus := some [1] }

/-- A command oracle on which every benchmark execution exits with status 1
(no stdout worth parsing). -/
def execAllFail : String → Nat → Nat → ExecOutcome := fun _ _ _ => ⟨1, none⟩

/-- A command oracle whose very first execution (cpu-count 1, iteration 0)
exits with status 1 while every other execution succeeds with stdout `5`. -/
def execOneBad : Nat → Nat → ExecOutcome := fun cpu it =>
  if cpu = 1 ∧ it = 0 then ⟨1, none⟩ else ⟨0, some 5⟩

/-- A concrete result row as produced by a successful pipeline. -/
def sampleRow : ScoreRow :=
  ⟨"t3.xlarge", 1, some 1, "bench-A", none, "run-bench", none⟩

/-! ## Claims about the instance-creation loop -/

/-- Once `retcount` reaches 16 the `while` guard fails and the loop exits
with no instance, whatever fuel remains. -/
lemma loop_halt (f : Nat → CreateOutcome) (fuel : Nat) (st : PState)
    (hret : ¬ st.retcount < 16) :
    create_instance_loop f fuel st = some (.noInstance st.attempts st.sleeps) := by
  cases fuel <;> simp [create_instance_loop, hret]

/-- Unfolding one iteration: a successful `run_instances` call breaks out
with the instance, created under the current market specs. -/
lemma loop_step_success (f : Nat → CreateOutcome) (fuel : Nat) (st : PState)
    (hret : st.retcount < 16) (hc : f st.attempts = .success) :
    create_instance_loop f (fuel + 1) st =
      some (.created st.market (st.attempts + 1) st.sleeps) := by
  simp [create_instance_loop, hret, hc]

/-- Unfolding one iteration: a non-`ClientError` exception sleeps and
increments the counter. -/
lemma loop_step_other (f : Nat → CreateOutcome) (fuel : Nat) (st : PState)
    (hret : st.retcount < 16) (hc : f st.attempts = .otherExc) :
    create_instance_loop f (fuel + 1) st =
      create_instance_loop f fuel
        ⟨st.market, st.retcount + 1, st.attempts + 1, st.sleeps + 1⟩ := by
  simp [create_instance_loop, hret, hc]

/-- Unfolding one iteration: `RequestLimitExceeded` sleeps and increments
the counter, staying on the current market specs. -/
lemma loop_step_reqlimit (f : Nat → CreateOutcome) (fuel : Nat) (st : PState)
    (hret : st.retcount < 16)
    (hc : f st.attempts = .clientError "RequestLimitExceeded") :
    create_instance_loop f (fuel + 1) st =
      create_instance_loop f fuel
        ⟨st.market, st.retcount + 1, st.attempts + 1, st.sleeps + 1⟩ := by
  simp [create_instance_loop, hret, hc]

/-- Unfolding one iteration: a capacity or spot-price error switches to the
on-demand specs and resets the counter, without sleeping. -/
lemma loop_step_reset (f : Nat → CreateOutcome) (fuel : Nat) (st : PState)
    (code : String) (hret : st.retcount < 16)
    (hc : f st.attempts = .clientError code)
    (hcode : code = "InsufficientInstanceCapacity" ∨ code = "SpotMaxPriceTooLow") :
    create_instance_loop f (fuel + 1) st =
      create_instance_loop f fuel ⟨Market.onDemand, 0, st.attempts + 1, st.sleeps⟩ := by
  rcases hcode with rfl | rfl <;> simp [create_instance_loop, hret, hc]

/-- Unfolding one iteration: a permanently-invalid error breaks out with no
instance. -/
lemma loop_step_permanent (f : Nat → CreateOutcome) (fuel : Nat) (st : PState)
    (code : String) (hret : st.retcount < 16)
    (hc : f st.attempts = .clientError code)
    (hcode : code = "MissingParameter" ∨ code = "InvalidParameterValue" ∨
      code = "Unsupported") :
    create_instance_loop f (fuel + 1) st =
      some (.noInstance (st.attempts + 1) st.sleeps) := by
  rcases hcode with rfl | rfl | rfl <;> simp [create_instance_loop, hret, hc]

/-- Unfolding one iteration: a `ClientError` with any other code sleeps and
increments the counter. -/
lemma loop_step_unclassified (f : Nat → CreateOutcome) (fuel : Nat) (st : PState)
    (code : String) (hret : st.retcount < 16)
    (hc : f st.attempts = .clientError code)
    (h1 : code ≠ "RequestLimitExceeded")
    (h2 : code ≠ "InsufficientInstanceCapacity")
    (h3 : code ≠ "SpotMaxPriceTooLow")
    (h4 : ¬ (code = "MissingParameter" ∨ code = "InvalidParameterValue" ∨
      code = "Unsupported")) :
    create_instance_loop f (fuel + 1) st =
      create_instance_loop f fuel
        ⟨st.market, st.retcount + 1, st.attempts + 1, st.sleeps + 1⟩ := by
  simp [create_instance_loop, hret, hc, h1, h2, h3, h4]

/-- Claim C4: A create-attempt failure classified as permanently invalid
(`Unsupported`, `InvalidParameterValue`, `MissingParameter`) makes the loop
`break` out of provisioning with no instance after exactly one further
attempt from the current state, with no further retry and no backoff sleep
(the sleep counter is unchanged). -/
theorem permanent_error_fails_after_one_attempt
    (f : Nat → CreateOutcome) (st : PState) (fuel : Nat) (code : String)
    (hret : st.retcount < 16) (hfuel : 0 < fuel)
    (hcode : code = "MissingParameter" ∨ code = "InvalidParameterValue" ∨
      code = "Unsupported")
    (hf : f st.attempts = .clientError code) :
    create_instance_loop f fuel st = some (.noInstance (st.attempts + 1) st.sleeps) := by
  obtain ⟨n, rfl⟩ : ∃ n, fuel = n + 1 := ⟨fuel - 1, by omega⟩
  rcases hcode with rfl | rfl | rfl <;> simp [create_instance_loop, hret, hf]

/-- Witness for C4: from the initial state, a first attempt failing with
`Unsupported` yields no instance after that one attempt and zero sleeps. -/
theorem permanent_error_fails_after_one_attempt_witness :
    create_instance_loop (fun _ => .clientError "Unsupported") 1 pInit =
      some (.noInstance 1 0) :=
  permanent_error_fails_after_one_attempt _ pInit 1 "Unsupported" (by decide)
    (by decide) (Or.inr (Or.inr rfl)) rfl

/-- Claim C5: When a spot create-attempt fails with capacity-exhausted
(`InsufficientInstanceCapacity`) or spot-price-too-low
(`SpotMaxPriceTooLow`), the loop continues from a state whose specs are the
on-demand ones (the spot market options removed) and whose attempt counter
is reset to 0, without sleeping; the next create-attempt therefore uses
on-demand market options. -/
theorem capacity_error_switches_to_on_demand
    (f : Nat → CreateOutcome) (st : PState) (fuel : Nat) (code : String)
    (hret : st.retcount < 16) (_hspot : st.market = .spot)
    (hcode : code = "InsufficientInstanceCapacity" ∨ code = "SpotMaxPriceTooLow")
    (hf : f st.attempts = .clientError code) :
    create_instance_loop f (fuel + 1) st =
      create_instance_loop f fuel ⟨Market.onDemand, 0, st.attempts + 1, st.sleeps⟩ := by
  rcases hcode with rfl | rfl <;> simp [create_instance_loop, hret, hf]

/-- Witness for C5: a first spot attempt failing with
`InsufficientInstanceCapacity` continues the loop from the on-demand state
with the counter reset to 0. -/
theorem capacity_error_switches_to_on_demand_witness :
    create_instance_loop (fun _ => .clientError "InsufficientInstanceCapacity") 1 pInit =
      create_instance_loop (fun _ => .clientError "InsufficientInstanceCapacity") 0
        ⟨Market.onDemand, 0, 1, 0⟩ :=
  capacity_error_switches_to_on_demand _ pInit 0 _ (by decide) rfl (Or.inl rfl) rfl

/-- Claim C6, counterexample: The claim says the number of create-attempts is
bounded for every sequence of provider errors.  It is not: on an unending
sequence of `InsufficientInstanceCapacity` errors the loop resets
`retcount` to 0 on every iteration (not only on the first spot-to-on-demand
switch), so no iteration bound ever suffices — the loop makes more
attempts than any bound. -/
theorem capacity_loop_diverges_cex :
    provisionDiverges (fun _ => .clientError "InsufficientInstanceCapacity") := by
  intro fuel
  suffices h : ∀ fuel (st : PState), st.retcount < 16 →
      create_instance_loop (fun _ => .clientError "InsufficientInstanceCapacity")
        fuel st = none from h fuel pInit (by decide)
  intro fuel
  induction fuel with
  | zero => intro st h; simp [create_instance_loop, h]
  | succ n ih =>
      intro st h
      rw [loop_step_reset _ n st "InsufficientInstanceCapacity" h rfl (Or.inl rfl)]
      apply ih
      show (0 : Nat) < 16
      decide

/-- The remaining fuel needed when no reset outcome occurs from the current
attempt index on: each iteration either finishes or increments `retcount`,
which the `while` guard caps at 16. -/
lemma loop_some_of_no_resets (f : Nat → CreateOutcome) :
    ∀ (fuel : Nat) (st : PState),
      (∀ n, st.attempts ≤ n → isResetOutcome (f n) = false) →
      17 ≤ fuel + st.retcount →
      (create_instance_loop f fuel st).isSome = true := by
  intro fuel
  induction fuel with
  | zero =>
      intro st _ hle
      rw [loop_halt f 0 st (by omega)]
      rfl
  | succ n ih =>
      intro st hno hle
      by_cases hret : st.retcount < 16
      case neg =>
        rw [loop_halt f _ st hret]
        rfl
      case pos =>
      have hfa := hno st.attempts le_rfl
      cases hc : f st.attempts with
      | success =>
          rw [loop_step_success f n st hret hc]
          rfl
      | otherExc =>
          rw [loop_step_other f n st hret hc]
          apply ih
          · intro k hk
            refine hno k ?_
            have hx : st.attempts + 1 ≤ k := hk
            omega
          · show 17 ≤ n + (st.retcount + 1)
            omega
      | clientError code =>
          rw [hc] at hfa
          simp [isResetOutcome] at hfa
          obtain ⟨hc1, hc2⟩ := hfa
          by_cases h1 : code = "RequestLimitExceeded"
          · subst h1
            rw [loop_step_reqlimit f n st hret hc]
            apply ih
            · intro k hk
              refine hno k ?_
              have hx : st.attempts + 1 ≤ k := hk
              omega
            · show 17 ≤ n + (st.retcount + 1)
              omega
          · by_cases h4 : code = "MissingParameter" ∨ code = "InvalidParameterValue" ∨
                code = "Unsupported"
            · rw [loop_step_permanent f n st code hret hc h4]
              rfl
            · rw [loop_step_unclassified f n st code hret hc h1 hc1 hc2 h4]
              apply ih
              · intro k hk
                refine hno k ?_
                have hx : st.attempts + 1 ≤ k := hk
                omega
              · show 17 ≤ n + (st.retcount + 1)
                omega

/-- When no reset outcome occurs at attempt index `st.attempts + k` or
later, `k + 17` iterations always finish the loop. -/
lemma loop_some_of_resets_before (f : Nat → CreateOutcome) :
    ∀ (k : Nat) (st : PState),
      (∀ n, st.attempts + k ≤ n → isResetOutcome (f n) = false) →
      (create_instance_loop f (k + 17) st).isSome = true := by
  intro k
  induction k with
  | zero =>
      intro st hno
      exact loop_some_of_no_resets f 17 st (fun n hn => hno n (by omega)) (by omega)
  | succ k ih =>
      intro st hno
      have hstep : k + 1 + 17 = (k + 17) + 1 := by omega
      rw [hstep]
      by_cases hret : st.retcount < 16
      case neg =>
        rw [loop_halt f _ st hret]
        rfl
      case pos =>
      cases hc : f st.attempts with
      | success =>
          rw [loop_step_success f (k + 17) st hret hc]
          rfl
      | otherExc =>
          rw [loop_step_other f (k + 17) st hret hc]
          apply ih
          intro n hn
          refine hno n ?_
          have hx : st.attempts + 1 + k ≤ n := hn
          omega
      | clientError code =>
          by_cases h1 : code = "RequestLimitExceeded"
          · subst h1
            rw [loop_step_reqlimit f (k + 17) st hret hc]
            apply ih
            intro n hn
            refine hno n ?_
            have hx : st.attempts + 1 + k ≤ n := hn
            omega
          · by_cases h2 : code = "InsufficientInstanceCapacity" ∨ code = "SpotMaxPriceTooLow"
            · rw [loop_step_reset f (k + 17) st code hret hc h2]
              apply ih
              intro n hn
              refine hno n ?_
              have hx : st.attempts + 1 + k ≤ n := hn
              omega
            · by_cases h4 : code = "MissingParameter" ∨ code = "InvalidParameterValue" ∨
                  code = "Unsupported"
              · rw [loop_step_permanent f (k + 17) st code hret hc h4]
                rfl
              · rw [loop_step_unclassified f (k + 17) st code hret hc h1
                  (fun hh => h2 (Or.inl hh)) (fun hh => h2 (Or.inr hh)) h4]
                apply ih
                intro n hn
                refine hno n ?_
                have hx : st.attempts + 1 + k ≤ n := hn
                omega

/-- Claim C6, amended: Rate-limited and unclassified errors sleep
`1.2 ** retcount` and increment the single attempt counter, which the
`while` guard caps at 16 before declaring failure; but the counter is reset
to 0 on **every** capacity-exhausted or spot-price-too-low error, not only
on the first spot-to-on-demand transition.  The number of create-attempts
is therefore bounded only for error sequences containing finitely many
capacity/price-too-low outcomes: if no such outcome occurs at or after
attempt `m`, the loop finishes within `m + 17` iterations. -/
theorem provision_loop_terminates_when_resets_finite
    (f : Nat → CreateOutcome) (m : Nat)
    (h : ∀ n, m ≤ n → isResetOutcome (f n) = false) :
    (create_instance_loop f (m + 17) pInit).isSome = true :=
  loop_some_of_resets_before f m pInit
    (fun n hn => h n (by have hx : 0 + m ≤ n := hn; omega))

/-- Witness for the amended C6: an oracle of unclassified exceptions only
(no reset outcome anywhere) finishes within 17 iterations. -/
theorem provision_loop_terminates_when_resets_finite_witness :
    (create_instance_loop (fun _ => CreateOutcome.otherExc) 17 pInit).isSome = true :=
  provision_loop_terminates_when_resets_finite (fun _ => .otherExc) 0 (fun _ _ => rfl)

/-! ## Claims about the benchmark sweep and the termination invariant -/

/-- Claim C1, code-bug exhibit: The claim says every instance that reaches
running receives exactly one terminate call on every exit path, including
exceptions raised by the score-aggregation step.  The code has no
`try/finally` around the benchmark loops: here the instance is created on
the first attempt and ssh connects, but every benchmark execution exits
non-zero, so the sample list for cpu-count 1 is empty, the default `max`
aggregation raises `ValueError`, the exception propagates out of
`run_benchmarks`, and the `terminate_instances` call of line 536 is never
reached — zero terminate calls, not one. -/
theorem run_benchmarks_skips_terminate_on_aggregation_error :
    run_benchmarks (fun _ => .success) 1 true inst8 [("bench-A", bd1)] execAllFail =
      some ⟨.raised .valueError, 0⟩ := rfl

/-- A list of execution outcomes none of which exited with status 0
contributes no sample at all. -/
lemma iterSamples_eq_nil (outs : List ExecOutcome) (h : ∀ o ∈ outs, o.ec ≠ 0) :
    iterSamples outs = [] := by
  induction outs with
  | nil => rfl
  | cons o rest ih =>
      have ho : ¬ o.ec = 0 := h o (List.mem_cons_self o rest)
      have hiff : ¬ ((o.ec == 0) = true) := by simpa using ho
      simp only [iterSamples, List.filter_cons, if_neg hiff]
      exact ih (fun x hx => h x (List.mem_cons_of_mem _ hx))

/-- Claim C2, counterexample: The claim says absent samples are excluded
before aggregation and an all-absent cpu-count still emits a `ScoreRow`
with an absent score, with no exception propagating past the sweep.  On a
sweep whose three iterations all exit non-zero, the code instead hands the
empty raw sample list to `max`, which raises `ValueError`, and the sweep
produces an error rather than a row. -/
theorem sweep_all_absent_raises_cex :
    sweepRows inst8 "bench-A" bd1 "img" (execAllFail "bench-A") =
      .error .valueError := rfl

/-- Claim C2, amended: Absent samples are not excluded before aggregation:
the raw sample list (with `None` entries for unparsable stdout and nothing
at all for non-zero exits) is passed to the aggregation function, so
whenever every iteration of every cpu-count of a sweep exits non-zero, the
sample list of the first cpu-count is empty and the default `max`
aggregation raises `ValueError`, which propagates past the sweep; no
`ScoreRow` is emitted. -/
theorem sweep_all_nonzero_exit_raises
    (inst : PriceRow) (nm img : String) (bd : BenchData)
    (ex : Nat → Nat → ExecOutcome)
    (hagg : bd.score_aggregation = none)
    (hcpus : effectiveCpus bd inst.vcpu ≠ [])
    (hfail : ∀ c it, (ex c it).ec ≠ 0) :
    sweepRows inst nm bd img ex = .error .valueError := by
  obtain ⟨c, rest, hc⟩ := List.exists_cons_of_ne_nil hcpus
  have hsamples : samplesFor bd ex c = [] := by
    unfold samplesFor
    apply iterSamples_eq_nil
    intro o ho
    simp only [List.mem_map] at ho
    obtain ⟨it, -, rfl⟩ := ho
    exact hfail c it
  have hstep : cpuScore inst nm img bd ex c = .error .valueError := by
    simp [cpuScore, hagg, hsamples, pyMax]
  simp only [sweepRows, hc, collectEx, hstep]

/-- Witness for the amended C2: a concrete sweep over cpu-count 1 whose
three iterations all exit with status 2 raises `ValueError`. -/
theorem sweep_all_nonzero_exit_raises_witness :
    sweepRows inst8 "bench-B" bd1 "img" (fun _ _ => ⟨2, none⟩) =
      .error .valueError :=
  sweep_all_nonzero_exit_raises inst8 "bench-B" "img" bd1 (fun _ _ => ⟨2, none⟩)
    rfl (by decide) (fun _ _ => by show (2 : Nat) ≠ 0; decide)

/-- Claim C3, counterexample: The claim says each of the `iterations`
executions yields exactly one sample (valid or absent).  With
`cpus = [1, 4]` and `iterations = 2`, an execution exiting non-zero
contributes no sample at all: cpu-count 1 aggregates a single sample, not
two. -/
theorem nonzero_exit_yields_no_sample_cex :
    samplesFor bd14 execOneBad 1 = [some 5] ∧
      (samplesFor bd14 execOneBad 1).length ≠ 2 := by
  constructor <;> decide

/-- Claim C3, amended: An execution with exit code 0 yields exactly one
sample (`float(stdout)` on parse success, `None` otherwise) and an
execution with non-zero exit yields no sample, so each cpu-count
aggregates exactly as many samples as there were zero-exit executions.
Hence a spec with `cpus = [1, 4]` and `iterations = 2` on a vcpu-8
instance whose executions all exit 0 with numeric stdout produces exactly
2 `ScoreRow`s — cpu-counts 1 and 4 — each aggregating exactly 2
samples. -/
theorem iteration_sampling_amended
    (ex : Nat → Nat → ExecOutcome) (v : Nat → Nat → Rat)
    (hex : ∀ c it, ex c it = ⟨0, some (v c it)⟩) :
    (∀ outs : List ExecOutcome,
        (iterSamples outs).length = (outs.filter (fun o => o.ec == 0)).length) ∧
    (samplesFor bd14 ex 1).length = 2 ∧
    (samplesFor bd14 ex 4).length = 2 ∧
    sweepRows inst8 "bench-A" bd14 "img" ex =
      .ok [ { instanceType := "m5.2xlarge", benchmark_cpus := 1,
              benchmark_score := some (if v 1 1 > v 1 0 then v 1 1 else v 1 0),
              benchmark_id := "bench-A", benchmark_name := none,
              benchmark_cmd := dockerCmd "img" "run-bench",
              benchmark_program := none },
            { instanceType := "m5.2xlarge", benchmark_cpus := 4,
              benchmark_score := some (if v 4 1 > v 4 0 then v 4 1 else v 4 0),
              benchmark_id := "bench-A", benchmark_name := none,
              benchmark_cmd := dockerCmd "img" "run-bench",
              benchmark_program := none } ] := by
  have hr : List.range 2 = [0, 1] := rfl
  have h1 : samplesFor bd14 ex 1 = [some (v 1 0), some (v 1 1)] := by
    simp [samplesFor, bd14, bdBase, hr, hex, iterSamples]
  have h4 : samplesFor bd14 ex 4 = [some (v 4 0), some (v 4 1)] := by
    simp [samplesFor, bd14, bdBase, hr, hex, iterSamples]
  have hcp : effectiveCpus bd14 inst8.vcpu = [1, 4] := rfl
  have hagg14 : bd14.score_aggregation = none := rfl
  refine ⟨fun outs => by simp [iterSamples], by rw [h1]; rfl, by rw [h4]; rfl, ?_⟩
  have hs1 : cpuScore inst8 "bench-A" "img" bd14 ex 1 =
      .ok { instanceType := "m5.2xlarge", benchmark_cpus := 1,
            benchmark_score := some (if v 1 1 > v 1 0 then v 1 1 else v 1 0),
            benchmark_id := "bench-A", benchmark_name := none,
            benchmark_cmd := dockerCmd "img" "run-bench",
            benchmark_program := none } := by
    simp only [cpuScore, hagg14, Option.getD_none, h1]
    rfl
  have hs4 : cpuScore inst8 "bench-A" "img" bd14 ex 4 =
      .ok { instanceType := "m5.2xlarge", benchmark_cpus := 4,
            benchmark_score := some (if v 4 1 > v 4 0 then v 4 1 else v 4 0),
            benchmark_id := "bench-A", benchmark_name := none,
            benchmark_cmd := dockerCmd "img" "run-bench",
            benchmark_program := none } := by
    simp only [cpuScore, hagg14, Option.getD_none, h4]
    rfl
  simp only [sweepRows, hcp, collectEx, hs1, hs4]

/-- Witness for the amended C3: with every execution exiting 0 and stdout
parsing to 1, the sweep yields exactly the two rows for cpu-counts 1 and
4, both scored 1. -/
theorem iteration_sampling_amended_witness :
    sweepRows inst8 "bench-A" bd14 "img" (fun _ _ => ⟨0, some 1⟩) =
      .ok [ { instanceType := "m5.2xlarge", benchmark_cpus := 1,
              benchmark_score := some 1, benchmark_id := "bench-A",
              benchmark_name := none,
              benchmark_cmd := dockerCmd "img" "run-bench",
              benchmark_program := none },
            { instanceType := "m5.2xlarge", benchmark_cpus := 4,
              benchmark_score := some 1, benchmark_id := "bench-A",
              benchmark_name := none,
              benchmark_cmd := dockerCmd "img" "run-bench",
              benchmark_program := none } ] := by
  have h := iteration_sampling_amended (fun _ _ => ⟨0, some 1⟩) (fun _ _ => 1)
    (fun _ _ => rfl)
  simpa using h.2.2.2

/-! ## Claims about the fleet coordinator and the freshness filter -/

/-- Claim C7, code-bug exhibit: The claim says a benchmark is excluded from
an instance's applicable set iff a historical row for it has age strictly
below the freshness window.  The code compares `expire` against
`(datetime.now() - row.date).seconds` — the seconds **component** of the
timedelta, i.e. the age modulo one day — so a row aged 1 day 10 minutes
(87000 s) with `expire = 3600` is treated as fresh (`600 < 3600`) and
bench-A is wrongly excluded from c5.large's applicable set instead of
being re-benchmarked. -/
theorem freshness_filter_uses_seconds_component :
    tdSeconds 87000 = 600 ∧
      get_benchmarks_to_run c5row [⟨"c5.large", "bench-A", 87000⟩] 3600
        [("bench-A", bdBase)] = [] :=
  ⟨rfl, rfl⟩

/-- Claim C8, code-bug exhibit: The claim says every on-demand instance type
with a non-empty applicable benchmark set is dispatched to a pipeline.  The
leftover debug filter of lines 572-578 skips every instance type except
`'t3.xlarge'`: an eligible on-demand c5.large with a non-empty benchmark
set gets no pipeline, while the identical t3.xlarge row gets one. -/
theorem coordinator_dispatches_only_t3_xlarge :
    build_bench_args [c5row] none false 0 [("bench-A", bdBase)] = [] ∧
      (build_bench_args [t3row] none false 0 [("bench-A", bdBase)]).length = 1 :=
  ⟨rfl, rfl⟩

/-- Claim C9, counterexample: The claim says the coordinator returns the union
of the pipelines' row sets for every combination of per-pipeline successes
and failures, including all pipelines failing.  When every dispatched
pipeline returns no result (here: the only pipeline returns `None`),
`pd.concat` receives only `None` objects and raises `ValueError` instead of
returning an empty result set. -/
theorem all_none_merge_raises_cex :
    get_ec2_performance [t3row] none false 0 [("bench-A", bdBase)]
      (fun _ _ => .ok none) = .error .valueError := rfl

/-- Collecting the pool results of pipelines that all return normally
yields exactly their returned values in dispatch order. -/
lemma poolCollect_map_ok
    (args : List (PriceRow × List (String × BenchData)))
    (pipeline : PriceRow → List (String × BenchData) →
      Except PyErr (Option (List ScoreRow)))
    (g : PriceRow × List (String × BenchData) → Option (List ScoreRow))
    (h : ∀ a ∈ args, pipeline a.1 a.2 = .ok (g a)) :
    poolCollect (args.map (fun ab => pipeline ab.1 ab.2)) = .ok (args.map g) := by
  induction args with
  | nil => rfl
  | cons a rest ih =>
      simp only [List.map_cons, poolCollect, h a (List.mem_cons_self a rest)]
      rw [ih (fun x hx => h x (List.mem_cons_of_mem _ hx))]

/-- Claim C9, amended: For pipelines that return normally (no exception):
the coordinator's merge is the concatenation of the row sets of the
pipelines that returned rows, pipelines that returned no result contribute
nothing, and when no offer is dispatched at all the result is the empty set
without an error — but when at least one pipeline is dispatched and every
one of them returns no result, the merge raises `ValueError` instead of
returning an empty set. -/
theorem merge_of_returning_pipelines
    (prices : List PriceRow) (perf : Option (List PerfRow)) (update : Bool)
    (expire : Int) (bm : List (String × BenchData))
    (pipeline : PriceRow → List (String × BenchData) →
      Except PyErr (Option (List ScoreRow)))
    (g : PriceRow × List (String × BenchData) → Option (List ScoreRow))
    (h : ∀ a ∈ build_bench_args prices perf update expire bm,
      pipeline a.1 a.2 = .ok (g a)) :
    (build_bench_args prices perf update expire bm = [] →
        get_ec2_performance prices perf update expire bm pipeline = .ok []) ∧
    (build_bench_args prices perf update expire bm ≠ [] →
      (((build_bench_args prices perf update expire bm).map g).filterMap id = [] →
          get_ec2_performance prices perf update expire bm pipeline =
            .error .valueError) ∧
      (((build_bench_args prices perf update expire bm).map g).filterMap id ≠ [] →
          get_ec2_performance prices perf update expire bm pipeline =
            .ok (((build_bench_args prices perf update expire bm).map g).filterMap
              id).flatten)) := by
  have hcoll := poolCollect_map_ok (build_bench_args prices perf update expire bm)
    pipeline g h
  refine ⟨?_, ?_⟩
  · intro he
    simp [get_ec2_performance, he]
  · intro hne
    have hie : (build_bench_args prices perf update expire bm).isEmpty = false := by
      cases hargs : build_bench_args prices perf update expire bm with
      | nil => exact absurd hargs hne
      | cons a l => rfl
    constructor
    · intro hfm
      simp [get_ec2_performance, hie, mergeResults, hcoll, hfm]
    · intro hfm
      have hfie :
          (((build_bench_args prices perf update expire bm).map g).filterMap
            id).isEmpty = false := by
        cases hl : ((build_bench_args prices perf update expire bm).map g).filterMap id with
        | nil => exact absurd hl hfm
        | cons a l => rfl
      simp only [get_ec2_performance]
      rw [if_neg (by simp [hie])]
      simp only [mergeResults, hcoll]
      exact if_neg (by rw [hfie]; exact Bool.false_ne_true)

/-- Witness for the amended C9: one dispatched pipeline returning one row
makes the coordinator return exactly that row set. -/
theorem merge_of_returning_pipelines_witness :
    get_ec2_performance [t3row] none false 0 [("bench-A", bdBase)]
      (fun _ _ => .ok (some [sampleRow])) = .ok [sampleRow] := by
  have h := merge_of_returning_pipelines [t3row] none false 0 [("bench-A", bdBase)]
    (fun _ _ => .ok (some [sampleRow])) (fun _ => some [sampleRow]) (fun a _ => rfl)
  have hne : build_bench_args [t3row] none false 0 [("bench-A", bdBase)] ≠ [] := by
    show ((t3row, [("bench-A", bdBase)]) :: ([] : List _)) ≠ []
    exact List.cons_ne_nil _ _
  have hfm : ((build_bench_args [t3row] none false 0 [("bench-A", bdBase)]).map
      (fun _ => some [sampleRow])).filterMap id ≠ [] := by
    show ([sampleRow] :: ([] : List _)) ≠ []
    exact List.cons_ne_nil _ _
  simpa using (h.2 hne).2 hfm

/-! ## Claim about the purity of the freshness filter -/

/-- A heap write through the copy's address leaves every other address
unchanged. -/
lemma dropExpiredHeap_mem_other (myAddr : Nat) (expire : Int) (hh : Heap)
    (row : PerfRow) (b : Nat) (hb : b ≠ myAddr) :
    (dropExpiredHeap myAddr expire hh row).mem b = hh.mem b := by
  unfold dropExpiredHeap
  split_ifs with hcond
  · rfl
  · simp [hb]

/-- A heap write through the copy's address performs the pure pop step on
the copy's contents. -/
lemma dropExpiredHeap_mem_self (myAddr : Nat) (expire : Int) (hh : Heap)
    (row : PerfRow) :
    (dropExpiredHeap myAddr expire hh row).mem myAddr =
      dropExpired expire (hh.mem myAddr) row := by
  unfold dropExpiredHeap dropExpired
  split_ifs with hcond
  · rfl
  · simp

/-- Folding the pop loop over the heap never touches addresses other than
the copy's. -/
lemma heapFold_mem_other (myAddr b : Nat) (hb : b ≠ myAddr) (expire : Int) :
    ∀ (rows : List PerfRow) (hh : Heap),
      (rows.foldl (dropExpiredHeap myAddr expire) hh).mem b = hh.mem b := by
  intro rows
  induction rows with
  | nil => intro hh; rfl
  | cons r rest ih =>
      intro hh
      rw [List.foldl_cons, ih, dropExpiredHeap_mem_other myAddr expire hh r b hb]

/-- Folding the pop loop over the heap computes, at the copy's address, the
pure fold over the copy's contents. -/
lemma heapFold_mem_self (myAddr : Nat) (expire : Int) :
    ∀ (rows : List PerfRow) (hh : Heap),
      (rows.foldl (dropExpiredHeap myAddr expire) hh).mem myAddr =
        rows.foldl (dropExpired expire) (hh.mem myAddr) := by
  intro rows
  induction rows with
  | nil => intro hh; rfl
  | cons r rest ih =>
      intro hh
      rw [List.foldl_cons, ih, List.foldl_cons, dropExpiredHeap_mem_self]

/-- Claim C10: `get_benchmarks_to_run` never mutates the global
benchmark-definition dictionary: for every heap in which the global
dictionary lives at a validly allocated address, after the call the
global address still holds its original contents, the returned dictionary
lives at a distinct address (disjoint identity), and the returned address
holds exactly the value computed by the pure `get_benchmarks_to_run` on
the original global contents. -/
theorem get_benchmarks_to_run_preserves_global
    (h : Heap) (gaddr : Nat) (inst : PriceRow) (perf : List PerfRow)
    (expire : Int) (hvalid : gaddr < h.next) :
    ((get_benchmarks_to_run_heap h gaddr inst perf expire).2.mem gaddr =
      h.mem gaddr) ∧
    ((get_benchmarks_to_run_heap h gaddr inst perf expire).1 ≠ gaddr) ∧
    ((get_benchmarks_to_run_heap h gaddr inst perf expire).2.mem
        (get_benchmarks_to_run_heap h gaddr inst perf expire).1 =
      get_benchmarks_to_run inst perf expire (h.mem gaddr)) := by
  have hga : gaddr ≠ h.next := by omega
  refine ⟨?_, by simpa [get_benchmarks_to_run_heap] using fun hc => hga hc.symm, ?_⟩
  · simp only [get_benchmarks_to_run_heap]
    rw [heapFold_mem_other h.next gaddr hga expire]
    simp [hga]
  · simp only [get_benchmarks_to_run_heap, get_benchmarks_to_run]
    rw [heapFold_mem_self h.next expire]
    simp

/-- Witness for C10: a one-cell heap holding the global dictionary at
address 0; a fresh historical row pops bench-A from the copy while the
global contents at address 0 survive unchanged at a different address. -/
theorem get_benchmarks_to_run_preserves_global_witness :
    ((get_benchmarks_to_run_heap ⟨fun _ => [("bench-A", bdBase)], 1⟩ 0 c5row
        [⟨"c5.large", "bench-A", 600⟩] 3600).2.mem 0 = [("bench-A", bdBase)]) ∧
    ((get_benchmarks_to_run_heap ⟨fun _ => [("bench-A", bdBase)], 1⟩ 0 c5row
        [⟨"c5.large", "bench-A", 600⟩] 3600).1 ≠ 0) := by
  have h := get_benchmarks_to_run_preserves_global
    ⟨fun _ => [("bench-A", bdBase)], 1⟩ 0 c5row
    [⟨"c5.large", "bench-A", 600⟩] 3600 (by show (0 : Nat) < 1; decide)
  exact ⟨h.1, h.2.1⟩
